import Mathlib

/-!
Shallow embedding of `src/programs/test_program/src/lib.rs`, an on-chain
program exposing two instructions, `add` and `subtract`, over unsigned
64-bit integers with checked arithmetic.

Unsigned 64-bit values are embedded as `Nat` together with the explicit
bound `U64_MOD = 2^64`.  Rust's `u64::checked_add` / `u64::checked_sub`
become `Option Nat`-valued functions; `Result<u64, ErrorCode>` becomes
`Except ErrorCode Nat`; the `msg!` diagnostic channel is made explicit as
the list of log lines an invocation emits, so each instruction returns a
pair `(Except ErrorCode Nat, List String)`.
-/

namespace test_program

/-- `2^64`, the number of values of Rust's `u64`. -/
def U64_MOD : Nat := 2 ^ 64

/-- Rust `u64::checked_add`: the exact sum when it fits in 64 bits,
`none` on overflow. -/
def checked_add (a b : Nat) : Option Nat :=
  if a + b < U64_MOD then some (a + b) else none

/-- Rust `u64::checked_sub`: the exact difference when `b <= a`,
`none` on underflow. -/
def checked_sub (a b : Nat) : Option Nat :=
  if b ≤ a then some (a - b) else none

/-- The `#[error_code]` enum of the program: a single variant `Overflow`. -/
inductive ErrorCode where
  | Overflow
deriving DecidableEq, Repr

/-- The `#[derive(Accounts)] pub struct Add {}`: an empty accounts
struct, carrying no account data. -/
structure Add where
deriving DecidableEq, Repr

/-- The Anchor `Context<T>` handed to every instruction by the host
calling convention: the program id, the deserialized accounts struct,
and any remaining account keys.  For this program `T = Add` is empty,
so the context carries no data the arithmetic could depend on. -/
structure Context (T : Type) where
  program_id : Nat
  accounts : T
  remaining_accounts : List Nat
deriving DecidableEq, Repr

/-- `pub fn add(ctx: Context<Add>, a: u64, b: u64) -> Result<u64>`.
`let result = a.checked_add(b).ok_or(ErrorCode::Overflow)?;` then
`msg!("Adding {} + {} = {}", a, b, result); Ok(result)`.  The second
component of the pair is the list of log lines emitted by `msg!`;
the `?` operator returns the error before any logging happens. -/
def add (ctx : Context Add) (a b : Nat) : Except ErrorCode Nat × List String :=
  match checked_add a b with
  | none => (Except.error ErrorCode.Overflow, [])
  | some result =>
      (Except.ok result, [s!"Adding {a} + {b} = {result}"])

/-- `pub fn subtract(ctx: Context<Add>, a: u64, b: u64) -> Result<u64>`.
`let result = a.checked_sub(b).ok_or(ErrorCode::Overflow)?;` then
`msg!("Subtracting {} - {} = {}", a, b, result); Ok(result)`. -/
def subtract (ctx : Context Add) (a b : Nat) : Except ErrorCode Nat × List String :=
  match checked_sub a b with
  | none => (Except.error ErrorCode.Overflow, [])
  | some result =>
      (Except.ok result, [s!"Subtracting {a} - {b} = {result}"])

/-- A concrete context value used by the witness theorems. -/
def exCtx : Context Add := ⟨0, ⟨⟩, []⟩

theorem checked_add_pos {a b : Nat} (h : a + b < U64_MOD) :
    checked_add a b = some (a + b) := by
  simp [checked_add, h]

theorem checked_add_neg {a b : Nat} (h : ¬ a + b < U64_MOD) :
    checked_add a b = none := by
  simp [checked_add, h]

theorem checked_sub_pos {a b : Nat} (h : b ≤ a) :
    checked_sub a b = some (a - b) := by
  simp [checked_sub, h]

theorem checked_sub_neg {a b : Nat} (h : ¬ b ≤ a) :
    checked_sub a b = none := by
  simp [checked_sub, h]

/-- Claim C1: for every pair of unsigned 64-bit integers `a`, `b` whose
mathematical sum fits in 64 bits, `add(a, b)` succeeds and returns
exactly `a + b`, never a wrapped or truncated value. -/
theorem add_exact (ctx : Context Add) (a b : Nat)
    (hab : a + b < U64_MOD) :
    (add ctx a b).fst = Except.ok (a + b) := by
  simp [add, checked_add_pos hab]

/-- Witness for C1 at the boundary case `add(u64::MAX, 0)`. -/
theorem add_exact_witness :
    (add exCtx (U64_MOD - 1) 0).fst = Except.ok (U64_MOD - 1) :=
  add_exact exCtx (U64_MOD - 1) 0 (by decide)

/-- Claim C2: for every pair of unsigned 64-bit integers `a`, `b` whose
mathematical sum exceeds `u64::MAX`, `add(a, b)` fails with the
`Overflow` error kind and produces no numeric result. -/
theorem add_overflow (ctx : Context Add) (a b : Nat)
    (ha : a < U64_MOD) (hb : b < U64_MOD) (hab : U64_MOD ≤ a + b) :
    (add ctx a b).fst = Except.error ErrorCode.Overflow := by
  simp [add, checked_add_neg (Nat.not_lt.mpr hab)]

/-- Witness for C2 at the boundary case `add(u64::MAX, 1)`. -/
theorem add_overflow_witness :
    (add exCtx (U64_MOD - 1) 1).fst = Except.error ErrorCode.Overflow :=
  add_overflow exCtx (U64_MOD - 1) 1 (by decide) (by decide) (by decide)

/-- Claim C3: for every pair of unsigned 64-bit integers `a`, `b` with
`a >= b`, `subtract(a, b)` succeeds and returns exactly `a - b`. -/
theorem subtract_exact (ctx : Context Add) (a b : Nat)
    (ha : a < U64_MOD) (hba : b ≤ a) :
    (subtract ctx a b).fst = Except.ok (a - b) := by
  simp [subtract, checked_sub_pos hba]

/-- Witness for C3 at the boundary case `subtract(5, 5)`. -/
theorem subtract_exact_witness :
    (subtract exCtx 5 5).fst = Except.ok 0 :=
  subtract_exact exCtx 5 5 (by decide) (by decide)

/-- Claim C4: for every pair of unsigned 64-bit integers `a`, `b` with
`a < b`, `subtract(a, b)` fails with the `Overflow` error kind and
produces no numeric result. -/
theorem subtract_underflow (ctx : Context Add) (a b : Nat)
    (hb : b < U64_MOD) (hab : a < b) :
    (subtract ctx a b).fst = Except.error ErrorCode.Overflow := by
  simp [subtract, checked_sub_neg (Nat.not_le.mpr hab)]

/-- Witness for C4 at the boundary case `subtract(0, 1)`. -/
theorem subtract_underflow_witness :
    (subtract exCtx 0 1).fst = Except.error ErrorCode.Overflow :=
  subtract_underflow exCtx 0 1 (by decide) (by decide)

/-- Claim C5: the error taxonomy contains exactly one error kind,
`Overflow`, and both failure conditions (addition overflow and
subtraction underflow) surface this same single kind to the caller. -/
theorem errorCode_single_kind :
    (∀ e : ErrorCode, e = ErrorCode.Overflow) ∧
    (∀ (ctx : Context Add) (a b : Nat) (e : ErrorCode),
      (add ctx a b).fst = Except.error e → e = ErrorCode.Overflow) ∧
    (∀ (ctx : Context Add) (a b : Nat) (e : ErrorCode),
      (subtract ctx a b).fst = Except.error e → e = ErrorCode.Overflow) := by
  refine ⟨fun e => ?_, fun _ _ _ e _ => ?_, fun _ _ _ e _ => ?_⟩ <;> cases e <;> rfl

/-- Witness for C5: the overflow of `add(u64::MAX, 1)` and the underflow
of `subtract(0, 1)` both surface the single kind `Overflow`. -/
theorem errorCode_single_kind_witness :
    ErrorCode.Overflow = ErrorCode.Overflow ∧
    ErrorCode.Overflow = ErrorCode.Overflow :=
  ⟨errorCode_single_kind.2.1 exCtx (U64_MOD - 1) 1 ErrorCode.Overflow rfl,
   errorCode_single_kind.2.2 exCtx 0 1 ErrorCode.Overflow rfl⟩

theorem add_eq_pos (ctx : Context Add) {a b : Nat} (h : a + b < U64_MOD) :
    add ctx a b = (Except.ok (a + b), [s!"Adding {a} + {b} = {a + b}"]) := by
  simp [add, checked_add_pos h]

theorem add_eq_neg (ctx : Context Add) {a b : Nat} (h : ¬ a + b < U64_MOD) :
    add ctx a b = (Except.error ErrorCode.Overflow, []) := by
  simp [add, checked_add_neg h]

theorem subtract_eq_pos (ctx : Context Add) {a b : Nat} (h : b ≤ a) :
    subtract ctx a b = (Except.ok (a - b), [s!"Subtracting {a} - {b} = {a - b}"]) := by
  simp [subtract, checked_sub_pos h]

theorem subtract_eq_neg (ctx : Context Add) {a b : Nat} (h : ¬ b ≤ a) :
    subtract ctx a b = (Except.error ErrorCode.Overflow, []) := by
  simp [subtract, checked_sub_neg h]

/-- Claim C6: on every input where `add` (resp. `subtract`) succeeds, it
emits exactly one diagnostic log line of the literal form
`Adding {a} + {b} = {result}` (resp. `Subtracting {a} - {b} = {result}`)
with the operands and result rendered in decimal. -/
theorem logs_on_success :
    (∀ (ctx : Context Add) (a b r : Nat),
      (add ctx a b).fst = Except.ok r →
      (add ctx a b).snd = [s!"Adding {a} + {b} = {r}"]) ∧
    (∀ (ctx : Context Add) (a b r : Nat),
      (subtract ctx a b).fst = Except.ok r →
      (subtract ctx a b).snd = [s!"Subtracting {a} - {b} = {r}"]) := by
  constructor
  · intro ctx a b r h
    by_cases hlt : a + b < U64_MOD
    · rw [add_eq_pos ctx hlt] at h ⊢
      simp only [Except.ok.injEq] at h
      subst h; rfl
    · rw [add_eq_neg ctx hlt] at h
      exact absurd h (by simp)
  · intro ctx a b r h
    by_cases hle : b ≤ a
    · rw [subtract_eq_pos ctx hle] at h ⊢
      simp only [Except.ok.injEq] at h
      subst h; rfl
    · rw [subtract_eq_neg ctx hle] at h
      exact absurd h (by simp)

/-- Witness for C6: `add(2, 3)` logs `Adding 2 + 3 = 5` and
`subtract(10, 4)` logs `Subtracting 10 - 4 = 6`. -/
theorem logs_on_success_witness :
    (add exCtx 2 3).snd = ["Adding 2 + 3 = 5"] ∧
    (subtract exCtx 10 4).snd = ["Subtracting 10 - 4 = 6"] :=
  ⟨logs_on_success.1 exCtx 2 3 5 rfl, logs_on_success.2 exCtx 10 4 6 rfl⟩

/-- Claim C7: `add` and `subtract` are deterministic: two calls to the
same operation with identical inputs produce identical outcomes (same
success value or same error kind, and even the same log lines); no
hidden state influences the result. -/
theorem deterministic (ctx : Context Add) (a1 b1 a2 b2 : Nat)
    (ha : a1 = a2) (hb : b1 = b2) :
    add ctx a1 b1 = add ctx a2 b2 ∧ subtract ctx a1 b1 = subtract ctx a2 b2 := by
  subst ha; subst hb; exact ⟨rfl, rfl⟩

/-- Witness for C7 at the input pair `(2, 3)`. -/
theorem deterministic_witness :
    add exCtx 2 3 = add exCtx 2 3 ∧ subtract exCtx 2 3 = subtract exCtx 2 3 :=
  deterministic exCtx 2 3 2 3 rfl rfl

/-- Claim C8: the account-context parameter does not influence the
outcome: for every `a`, `b` and any two context values, `add` (resp.
`subtract`) produces identical outcomes under either context. -/
theorem ctx_noninterference (ctx1 ctx2 : Context Add) (a b : Nat) :
    add ctx1 a b = add ctx2 a b ∧ subtract ctx1 a b = subtract ctx2 a b :=
  ⟨rfl, rfl⟩

/-- Claim C9: when `add` or `subtract` fails with `Overflow`, no
diagnostic log line is emitted at all: the checked arithmetic and the
early return happen strictly before the logging statement. -/
theorem no_log_on_failure :
    (∀ (ctx : Context Add) (a b : Nat) (e : ErrorCode),
      (add ctx a b).fst = Except.error e → (add ctx a b).snd = []) ∧
    (∀ (ctx : Context Add) (a b : Nat) (e : ErrorCode),
      (subtract ctx a b).fst = Except.error e → (subtract ctx a b).snd = []) := by
  constructor
  · intro ctx a b e h
    by_cases hlt : a + b < U64_MOD
    · rw [add_eq_pos ctx hlt] at h
      exact absurd h (by simp)
    · rw [add_eq_neg ctx hlt]
  · intro ctx a b e h
    by_cases hle : b ≤ a
    · rw [subtract_eq_pos ctx hle] at h
      exact absurd h (by simp)
    · rw [subtract_eq_neg ctx hle]

/-- Witness for C9: the failing calls `add(u64::MAX, 1)` and
`subtract(0, 1)` emit no log line. -/
theorem no_log_on_failure_witness :
    (add exCtx (U64_MOD - 1) 1).snd = [] ∧ (subtract exCtx 0 1).snd = [] :=
  ⟨no_log_on_failure.1 exCtx (U64_MOD - 1) 1 ErrorCode.Overflow rfl,
   no_log_on_failure.2 exCtx 0 1 ErrorCode.Overflow rfl⟩

/-- Claim C10: `subtract` is a right inverse of `add`: whenever
`add(a, b)` succeeds with value `s`, `subtract(s, b)` succeeds and
returns `a`, and symmetrically `subtract(s, a)` returns `b`. -/
theorem subtract_inverts_add (ctx : Context Add) (a b s : Nat)
    (h : (add ctx a b).fst = Except.ok s) :
    (subtract ctx s b).fst = Except.ok a ∧ (subtract ctx s a).fst = Except.ok b := by
  have hs : s = a + b := by
    by_cases hlt : a + b < U64_MOD
    · rw [add_eq_pos ctx hlt] at h
      simp only [Except.ok.injEq] at h
      exact h.symm
    · rw [add_eq_neg ctx hlt] at h
      exact absurd h (by simp)
  subst hs
  constructor
  · rw [subtract_eq_pos ctx (Nat.le_add_left b a)]
    simp [Nat.add_sub_cancel]
  · rw [subtract_eq_pos ctx (Nat.le_add_right a b)]
    simp [Nat.add_sub_cancel_left]

/-- Witness for C10: `add(2, 3) = 5`, and `subtract(5, 3) = 2`,
`subtract(5, 2) = 3`. -/
theorem subtract_inverts_add_witness :
    (subtract exCtx 5 3).fst = Except.ok 2 ∧
    (subtract exCtx 5 2).fst = Except.ok 3 :=
  subtract_inverts_add exCtx 2 3 5 rfl

end test_program
